import Mathlib

/-!
Verification of the request-execution core of the augment-opencode gateway.

The definitions below are a shallow embedding of the TypeScript sources:
error classification (src/src/errors.ts, duplicated inline in
src/src/server.ts), the retry policy (src/src/server.ts withRetry and
calculateRetryDelay), the client pool (getAuggieClient,
releaseAuggieClient, discardAuggieClient in the embedded plugin server and
in src/src/server.ts), the streaming protocol translator
(createStreamCallback of the embedded server with its reasoning buffer,
and the variant of src/src/server.ts built on createStreamChunk), request
validation (validateChatCompletionRequest of src/src/types.ts) and the
chat-completions handler. JavaScript strings are Lean strings; the
case-insensitive substring tests of the classifiers are modelled
character-exactly; machine integers need no overflow treatment here
(all arithmetic stays far below any word size).
-/

/-- Substring test on character lists: true when the second list occurs
contiguously inside the first. Used to model JavaScript
String.prototype.includes. -/
def charsContain : List Char → List Char → Bool
  | hay, needle =>
    match hay with
    | [] => needle.isEmpty
    | _ :: rest => needle.isPrefixOf hay || charsContain rest needle

/-- Model of JavaScript toLowerCase for the ASCII error messages the
classifiers inspect. -/
def jsToLower (s : String) : String := String.mk (s.data.map Char.toLower)

/-- Model of hay.includes(needle) on JavaScript strings. -/
def jsIncludes (hay needle : String) : Bool := charsContain hay.data needle.data

/-- Model of the failure values the classifiers receive: an Error object
with a message, an optional numeric statusCode property (absent models the
JavaScript undefined) and a name. Mirrors AugmentAPIError of
src/src/types.ts. -/
structure JsError where
  message : String
  statusCode : Option Int := none
  name : String := "Error"
deriving DecidableEq, Repr

/-- Translation of isRateLimitError from src/src/errors.ts (the copy in
src/src/server.ts is identical). -/
def isRateLimitError (e : JsError) : Bool :=
  let msg := jsToLower e.message
  e.statusCode == some 429 ||
    jsIncludes msg "rate limit" ||
    jsIncludes msg "rate_limit" ||
    jsIncludes msg "too many requests" ||
    jsIncludes msg "quota exceeded" ||
    jsIncludes msg "throttl"

/-- Translation of isContextLengthError from src/src/errors.ts (the copy
in src/src/server.ts is identical). -/
def isContextLengthError (e : JsError) : Bool :=
  let msg := jsToLower e.message
  jsIncludes msg "context length" ||
    jsIncludes msg "context_length" ||
    jsIncludes msg "token limit" ||
    jsIncludes msg "too long" ||
    jsIncludes msg "maximum context" ||
    jsIncludes msg "message too large" ||
    jsIncludes msg "input too long" ||
    jsIncludes msg "exceeds the model" ||
    jsIncludes msg "max_tokens"

/-- Translation of isSessionError from src/src/errors.ts (the copy in
src/src/server.ts is identical). -/
def isSessionError (e : JsError) : Bool :=
  let msg := jsToLower e.message
  jsIncludes msg "not connected" ||
    jsIncludes msg "no session" ||
    jsIncludes msg "initialization failed" ||
    jsIncludes msg "session expired" ||
    jsIncludes msg "session invalid" ||
    jsIncludes msg "websocket" ||
    jsIncludes msg "disconnected"

/-- Translation of isTransientError from src/src/errors.ts: the
statusCode ?? 0 fallback is modelled by Option.getD. -/
def isTransientError (e : JsError) : Bool :=
  let msg := jsToLower e.message
  let statusCode := e.statusCode.getD 0
  (decide (500 ≤ statusCode) && decide (statusCode < 600)) ||
    isSessionError e ||
    jsIncludes msg "network" ||
    jsIncludes msg "timeout" ||
    jsIncludes msg "timed out" ||
    jsIncludes msg "econnreset" ||
    jsIncludes msg "econnrefused" ||
    jsIncludes msg "socket hang up" ||
    jsIncludes msg "connection" ||
    jsIncludes msg "temporarily unavailable" ||
    jsIncludes msg "service unavailable" ||
    jsIncludes msg "internal server error"

/-- Translation of isRetryableError from src/src/errors.ts (the copy in
src/src/server.ts is identical): context-length failures are rejected
before the retryable categories are consulted. -/
def isRetryableError (e : JsError) : Bool :=
  if isContextLengthError e then false
  else isRateLimitError e || isTransientError e

namespace Embedded

/-- Translation of isRetryableError from the embedded plugin server
(part of the plugin bundle). The statusCode comparison models the
JavaScript (error as any).statusCode >= 500, which is false when the
property is absent. -/
def isRetryableError (e : JsError) : Bool :=
  let msg := jsToLower e.message
  if jsIncludes msg "context length" || jsIncludes msg "token limit" ||
      jsIncludes msg "too long" then false
  else
    jsIncludes msg "rate limit" ||
      jsIncludes msg "too many requests" ||
      jsIncludes msg "timeout" ||
      jsIncludes msg "econnreset" ||
      jsIncludes msg "socket hang up" ||
      jsIncludes msg "not connected" ||
      jsIncludes msg "no session" ||
      jsIncludes msg "websocket" ||
      (match e.statusCode with
        | some n => decide (500 ≤ n)
        | none => false)

/-- Translation of isSessionError from the embedded plugin server. -/
def isSessionError (e : JsError) : Bool :=
  let msg := jsToLower e.message
  jsIncludes msg "not connected" ||
    jsIncludes msg "no session" ||
    jsIncludes msg "websocket" ||
    jsIncludes msg "disconnected"

end Embedded

/-- Retry configuration of src/src/server.ts (RETRY_CONFIG). The embedded
plugin server uses the same numbers through RETRY_MAX,
RETRY_INITIAL_DELAY and RETRY_MAX_DELAY. -/
structure RetryConfig where
  maxRetries : Nat
  initialDelayMs : ℚ
  maxDelayMs : ℚ
  backoffMultiplier : ℚ
  jitterFactor : ℚ

/-- Values of RETRY_CONFIG in src/src/server.ts. -/
def RETRY_CONFIG : RetryConfig :=
  { maxRetries := 3
    initialDelayMs := 1000
    maxDelayMs := 30000
    backoffMultiplier := 2
    jitterFactor := 1 / 10 }

/-- Translation of calculateRetryDelay from src/src/server.ts. The call
to Math.random is made explicit: r stands for Math.random() * 2 - 1 and
therefore ranges over [-1, 1]. Math.floor becomes Int.floor. -/
def calculateRetryDelay (attempt : Nat) (r : ℚ) : Int :=
  let baseDelay : ℚ :=
    min (RETRY_CONFIG.initialDelayMs * RETRY_CONFIG.backoffMultiplier ^ attempt)
      RETRY_CONFIG.maxDelayMs
  Int.floor (baseDelay + baseDelay * RETRY_CONFIG.jitterFactor * r)

/-- Observable trace of one withRetry run: the final outcome, the list of
delays slept between consecutive attempts, and how many times the wrapped
operation was invoked. -/
structure RetryTrace (α : Type) where
  result : Except JsError α
  delays : List Int
  attempts : Nat

/-- Translation of the withRetry loop of src/src/server.ts, unrolled from
a given attempt index with the remaining retry budget as fuel. The
wrapped async operation is modelled as a function from the attempt index
to its outcome, and the jitter drawn on each attempt as a function from
the attempt index to the random draw. Success returns at once; a
non-retryable error or an exhausted budget propagates the error;
otherwise the computed delay is slept and the loop continues. -/
def withRetryFrom (op : Nat → Except JsError α) (jit : Nat → ℚ) :
    Nat → Nat → RetryTrace α
  | attempt, fuel =>
    match op attempt with
    | .ok v => ⟨.ok v, [], 1⟩
    | .error e =>
      if isRetryableError e = false then ⟨.error e, [], 1⟩
      else
        match fuel with
        | 0 => ⟨.error e, [], 1⟩
        | f + 1 =>
          let t := withRetryFrom op jit (attempt + 1) f
          ⟨t.result, calculateRetryDelay attempt (jit attempt) :: t.delays,
            t.attempts + 1⟩

/-- Translation of withRetry from src/src/server.ts: the loop runs
attempts 0 through RETRY_CONFIG.maxRetries. -/
def withRetry (op : Nat → Except JsError α) (jit : Nat → ℚ) : RetryTrace α :=
  withRetryFrom op jit 0 RETRY_CONFIG.maxRetries

/-- Delta payload of one SSE chunk, covering the fields the translator
emits: a reasoning_content delta, a content delta, or the empty delta of
the terminal chunk. -/
inductive Delta
  | reasoningContent (s : String)
  | contentDelta (s : String)
  | empty
deriving DecidableEq, Repr

/-- One write observed on the HTTP response during streaming: either a
data: chunk carrying an id, a delta and a finish_reason, or the literal
data: [DONE] marker. The created timestamp, model echo and
system_fingerprint fields carry no information relevant to the claims and
are elided. -/
inductive SSEWrite
  | chunk (id : String) (delta : Delta) (finishReason : Option String)
  | doneMarker
deriving DecidableEq, Repr

/-- Identifier carried by a write, when it is a chunk. -/
def writeId : SSEWrite → Option String
  | .chunk id _ _ => some id
  | .doneMarker => none

namespace Embedded

/-- Behaviour of one invocation of callStreamingInternal of the embedded
plugin server, as observed on the response stream: the chunks its
session-update callback (plus the final flush) wrote before it returned,
and the error it threw, if any. The pool bookkeeping it also performs is
modelled separately by the pool state machine below. -/
def AttemptBehavior := Nat → List SSEWrite × Option JsError

/-- Translation of the embedded servers callStreaming, which wraps
callStreamingInternal in withRetry (RETRY_MAX = 3): the loop of withRetry
unrolled over the per-attempt behaviour, accumulating every write made to
the response across attempts. Sleeps between attempts do not affect the
emitted byte sequence and are not recorded here. Returns the writes, the
final outcome and the number of times the prompt call was invoked. -/
def callStreamingFrom (beh : AttemptBehavior) :
    Nat → Nat → List SSEWrite × Except JsError Unit × Nat
  | attempt, fuel =>
    let (writes, errOpt) := beh attempt
    match errOpt with
    | none => (writes, .ok (), 1)
    | some e =>
      if Embedded.isRetryableError e = false then (writes, .error e, 1)
      else
        match fuel with
        | 0 => (writes, .error e, 1)
        | f + 1 =>
          let (ws, res, n) := callStreamingFrom beh (attempt + 1) f
          (writes ++ ws, res, n + 1)

/-- Entry point mirroring callStreaming of the embedded server:
withRetry starts at attempt 0 with RETRY_MAX = 3 retries remaining.
The callAugmentAPIStreaming of src/src/server.ts wraps its streaming
internal in the same way. -/
def callStreaming (beh : AttemptBehavior) : List SSEWrite × Except JsError Unit × Nat :=
  callStreamingFrom beh 0 3

end Embedded

/-- Content block of an upstream ACP session update: a type tag and an
optional text payload. -/
structure ContentBlock where
  type : String
  text : Option String
deriving DecidableEq, Repr

/-- One upstream session update as the stream callbacks see it: the
sessionUpdate discriminator string and the optional content block. The
tool-call, plan and command fields are not consulted by the branches
modelled here. -/
structure SessionUpdateMsg where
  sessionUpdate : String
  content : Option ContentBlock
deriving DecidableEq, Repr

/-- Truthiness of the optional text payload, modelling the JavaScript
test update.content.text (undefined and the empty string are falsy). -/
def contentTextTruthy (c : Option ContentBlock) : Bool :=
  match c with
  | some cb => cb.type == "text" && (match cb.text with
      | some t => !(t == "")
      | none => false)
  | none => false

/-- Text payload of a content block, defaulting an absent payload. Only
read behind contentTextTruthy, which guarantees presence. -/
def contentTextOf (c : Option ContentBlock) : String :=
  match c with
  | some cb => cb.text.getD ""
  | none => ""

/-- Shorthand for an agent_thought_chunk text event. -/
def thoughtEvent (t : String) : SessionUpdateMsg :=
  ⟨"agent_thought_chunk", some ⟨"text", some t⟩⟩

/-- Shorthand for an agent_message_chunk text event. -/
def textEvent (t : String) : SessionUpdateMsg :=
  ⟨"agent_message_chunk", some ⟨"text", some t⟩⟩

namespace Embedded

/-- Mutable state closed over by createStreamCallback of the embedded
plugin server: the pending reasoning fragments, whether any text content
has been emitted, and whether the reasoning buffer was already flushed. -/
structure StreamState where
  reasoningBuffer : List String
  hasStartedTextContent : Bool
  hasFlushedReasoning : Bool
deriving DecidableEq, Repr

/-- State at the start of one streaming response. -/
def initStreamState : StreamState :=
  { reasoningBuffer := [], hasStartedTextContent := false, hasFlushedReasoning := false }

/-- Translation of flushReasoningBuffer of the embedded server: a no-op
once flushed or while the buffer is empty; otherwise the buffered
fragments are joined into a single reasoning_content chunk and the buffer
is cleared with the flushed flag set. The chunk id is the stable
chatcmpl- identifier of the response. -/
def flushReasoningBuffer (chunkId : String) (st : StreamState) :
    StreamState × List SSEWrite :=
  if st.hasFlushedReasoning || st.reasoningBuffer.isEmpty then (st, [])
  else
    ({ st with reasoningBuffer := [], hasFlushedReasoning := true },
      [.chunk chunkId (.reasoningContent (String.join st.reasoningBuffer)) none])

/-- Translation of the callback body of createStreamCallback of the
embedded server, as a step function from one session update to the chunks
written: an agent_message_chunk first flushes any pending reasoning when
it is the first text content, then writes its content delta; an
agent_thought_chunk is buffered before text content has started and
written immediately afterwards; every other update kind writes nothing. -/
def streamCallbackStep (chunkId : String) (st : StreamState)
    (u : SessionUpdateMsg) : StreamState × List SSEWrite :=
  if u.sessionUpdate == "agent_message_chunk" then
    if contentTextTruthy u.content then
      if st.hasStartedTextContent then
        (st, [.chunk chunkId (.contentDelta (contentTextOf u.content)) none])
      else
        let st1 := { st with hasStartedTextContent := true }
        let (st2, flushed) := flushReasoningBuffer chunkId st1
        (st2, flushed ++ [.chunk chunkId (.contentDelta (contentTextOf u.content)) none])
    else (st, [])
  else if u.sessionUpdate == "agent_thought_chunk" then
    if contentTextTruthy u.content then
      if st.hasStartedTextContent then
        (st, [.chunk chunkId (.reasoningContent (contentTextOf u.content)) none])
      else
        ({ st with reasoningBuffer := st.reasoningBuffer ++ [contentTextOf u.content] }, [])
    else (st, [])
  else (st, [])

/-- Folding the callback over the arrival-ordered event sequence of one
prompt invocation. -/
def processUpdates (chunkId : String) (st : StreamState) :
    List SessionUpdateMsg → StreamState × List SSEWrite
  | [] => (st, [])
  | u :: rest =>
    let (st1, out) := streamCallbackStep chunkId st u
    let (st2, outRest) := processUpdates chunkId st1 rest
    (st2, out ++ outRest)

/-- Observable SSE output of one successful streaming request of the
embedded server: handleChatCompletions derives the stable chunk id from
the request id, callStreamingInternal feeds every update to the callback
and flushes the remaining reasoning in its finally block, and the handler
then writes the terminal empty-delta stop chunk followed by the literal
DONE marker. -/
def streamResponse (requestId : String) (events : List SessionUpdateMsg) :
    List SSEWrite :=
  let chunkId := "chatcmpl-" ++ requestId
  let (st, out) := processUpdates chunkId initStreamState events
  let (_, flushed) := flushReasoningBuffer chunkId st
  out ++ flushed ++ [.chunk chunkId .empty (some "stop"), .doneMarker]

end Embedded

namespace Server

/-- Translation of createStreamChunk from src/src/server.ts: each call
draws a fresh UUID for the chunk id (modelled by the explicit uuid
argument standing for randomUUID()), and the terminal form carries an
empty delta with finish_reason stop. -/
def createStreamChunk (uuid : String) (content : String) (isLast : Bool) : SSEWrite :=
  .chunk ("chatcmpl-" ++ uuid)
    (if isLast then .empty else .contentDelta content)
    (if isLast then some "stop" else none)

/-- Translation of the text branches of createStreamCallback from
src/src/server.ts, threading the supply of randomUUID draws: an
agent_message_chunk writes a content chunk through createStreamChunk,
consuming a fresh uuid; an agent_thought_chunk writes a reasoning chunk
under the stable chatcmpl-requestId identifier. The tool_call, plan,
command and mode branches write metadata chunks under the stable
identifier and are not exercised by the inputs below. -/
def streamCallbackStep (requestId : String) (uuids : List String)
    (u : SessionUpdateMsg) : List String × List SSEWrite :=
  if u.sessionUpdate == "agent_message_chunk" then
    if contentTextTruthy u.content then
      match uuids with
      | id0 :: rest => (rest, [createStreamChunk id0 (contentTextOf u.content) false])
      | [] => ([], [createStreamChunk "" (contentTextOf u.content) false])
    else (uuids, [])
  else if u.sessionUpdate == "agent_thought_chunk" then
    if contentTextTruthy u.content then
      (uuids, [.chunk ("chatcmpl-" ++ requestId) (.reasoningContent (contentTextOf u.content)) none])
    else (uuids, [])
  else (uuids, [])

/-- Folding the src/src/server.ts callback over the event sequence. -/
def processUpdates (requestId : String) (uuids : List String) :
    List SessionUpdateMsg → List String × List SSEWrite
  | [] => (uuids, [])
  | u :: rest =>
    let (uuids1, out) := streamCallbackStep requestId uuids u
    let (uuids2, outRest) := processUpdates requestId uuids1 rest
    (uuids2, out ++ outRest)

/-- Observable SSE output of one successful streaming request of
src/src/server.ts: the callback writes its chunks, then
handleChatCompletions writes createStreamChunk with isLast set (drawing
one more uuid) followed by the literal DONE marker. -/
def streamResponse (uuids : List String) (requestId : String)
    (events : List SessionUpdateMsg) : List SSEWrite :=
  let (uuidsRest, body) := processUpdates requestId uuids events
  let lastUuid := match uuidsRest with
    | u :: _ => u
    | [] => ""
  body ++ [createStreamChunk lastUuid "" true, .doneMarker]

end Server

/-- Pool capacity, POOL_SIZE = 5 in every server variant. -/
def POOL_SIZE : Nat := 5

/-- State of one client pool entry. Handles are identified by natural
numbers standing for the distinct AuggieClient objects. The available
array keeps its JavaScript order (push appends on the right, pop removes
on the right); inUse models the JavaScript Set; creating counts handle
constructions in flight; closed records every handle whose close() was
invoked, so that discarded handles can be traced. -/
structure PoolState where
  available : List Nat
  inUse : Finset Nat
  creating : Nat
  closed : Finset Nat
deriving DecidableEq

/-- Pool entry as first created: empty available array, empty in-use
set, nothing under construction. -/
def initPool : PoolState :=
  { available := [], inUse := ∅, creating := 0, closed := ∅ }

/-- Counter sum bounded by the pool invariant. -/
def poolCount (s : PoolState) : Nat :=
  s.available.length + s.inUse.card + s.creating

/-- Translation of releaseAuggieClient (identical logic in every server
variant): only a handle in the in-use set is acted on; it moves to the
available array while that array is below POOL_SIZE and is closed
otherwise. A handle outside the in-use set (in particular a temporary
overflow handle) is left untouched. -/
def releaseAuggieClient (s : PoolState) (c : Nat) : PoolState :=
  if c ∈ s.inUse then
    if s.available.length < POOL_SIZE then
      { s with inUse := s.inUse.erase c, available := s.available ++ [c] }
    else
      { s with inUse := s.inUse.erase c, closed := insert c s.closed }
  else s

/-- Translation of discardAuggieClient (identical logic in every server
variant): the handle is removed from the in-use set when present and its
close() is invoked unconditionally; it is never added to available. -/
def discardAuggieClient (s : PoolState) (c : Nat) : PoolState :=
  { s with inUse := s.inUse.erase c, closed := insert c s.closed }

/-- Translation of the finally block of callStreamingInternal of the
embedded server (callNonStreamingInternal is identical): a caught error
whose message is exactly Request aborted, or which the embedded
isSessionError classifies as a session fault, routes the handle to
discardAuggieClient; every other outcome routes it to
releaseAuggieClient. -/
def cleanupClient (e : Option JsError) (s : PoolState) (c : Nat) : PoolState :=
  match e with
  | some err =>
    if err.message == "Request aborted" || Embedded.isSessionError err then
      discardAuggieClient s c
    else releaseAuggieClient s c
  | none => releaseAuggieClient s c

/-- Atomic transitions of one pool entry under cooperative scheduling.
Each constructor is one synchronous segment of getAuggieClient,
releaseAuggieClient or discardAuggieClient, with the awaits of handle
construction as the only suspension points, exactly as in the source:
acquireAvail pops the last available handle and checks it out;
startCreate reserves a creation slot (only reachable when the available
array was empty and inUse + creating is below POOL_SIZE); finishCreateOk
and finishCreateErr resume after the awaited construction, the first
checking the new handle out (construction always yields a brand-new
object, so the new id is fresh: not available, not in use, never
closed); overflowAcquire is the saturated path, which constructs a
temporary handle without touching any counter; release and discard are
the synchronous bookkeeping functions above, for any handle argument. -/
inductive PoolStep : PoolState → PoolState → Prop
  | acquireAvail (s : PoolState) (c : Nat) (rest : List Nat) :
      s.available = rest ++ [c] →
      PoolStep s { s with available := rest, inUse := insert c s.inUse }
  | startCreate (s : PoolState) :
      s.available = [] →
      s.inUse.card + s.creating < POOL_SIZE →
      PoolStep s { s with creating := s.creating + 1 }
  | finishCreateOk (s : PoolState) (c : Nat) :
      0 < s.creating →
      c ∉ s.available → c ∉ s.inUse → c ∉ s.closed →
      PoolStep s { s with creating := s.creating - 1, inUse := insert c s.inUse }
  | finishCreateErr (s : PoolState) :
      0 < s.creating →
      PoolStep s { s with creating := s.creating - 1 }
  | overflowAcquire (s : PoolState) :
      s.available = [] →
      POOL_SIZE ≤ s.inUse.card + s.creating →
      PoolStep s s
  | release (s : PoolState) (c : Nat) :
      PoolStep s (releaseAuggieClient s c)
  | discard (s : PoolState) (c : Nat) :
      PoolStep s (discardAuggieClient s c)

/-- Reflexive-transitive closure of the pool transitions: every state an
interleaving of pool operations can take the entry to from a given
state. -/
inductive ReachFrom : PoolState → PoolState → Prop
  | refl (s : PoolState) : ReachFrom s s
  | tail {s t u : PoolState} : ReachFrom s t → PoolStep t u → ReachFrom s u

/-- States reachable from the freshly created pool entry. -/
def Reachable (s : PoolState) : Prop := ReachFrom initPool s

/-- JavaScript values as they appear in a parsed JSON request body, plus
undefined for absent properties. Numbers are integers here; no request
field the validator inspects carries a fractional value. -/
inductive JsValue
  | jsUndefined
  | jsNull
  | jsBool (b : Bool)
  | jsNum (n : Int)
  | jsStr (s : String)
  | jsArr (elems : List JsValue)
  | jsObj (fields : List (String × JsValue))

/-- Test for the undefined value. -/
def JsValue.isUndefined : JsValue → Bool
  | .jsUndefined => true
  | _ => false

/-- Test for the null value. -/
def JsValue.isNull : JsValue → Bool
  | .jsNull => true
  | _ => false

/-- JavaScript truthiness: undefined, null, false, 0 and the empty
string are falsy; every object and array (empty or not) is truthy. -/
def jsTruthy : JsValue → Bool
  | .jsUndefined => false
  | .jsNull => false
  | .jsBool b => b
  | .jsNum n => !(n == 0)
  | .jsStr s => !(s == "")
  | .jsArr _ => true
  | .jsObj _ => true

/-- Property access v.k: defined keys of an object are looked up, every
other access yields undefined. -/
def getField (v : JsValue) (k : String) : JsValue :=
  match v with
  | .jsObj fields => (fields.lookup k).getD .jsUndefined
  | _ => .jsUndefined

/-- Validation error payload of src/src/types.ts ValidationResult. -/
structure ValidationError where
  message : String
  etype : String
  code : String
  param : Option String
deriving DecidableEq, Repr

/-- Result of validateChatCompletionRequest: the source record
with valid as a boolean and an optional error is modelled as a sum. -/
inductive ValidationResult
  | valid
  | invalid (e : ValidationError)
deriving DecidableEq, Repr

/-- Roles accepted by src/src/types.ts (the inline copy in
src/src/server.ts restricts this list to user, assistant and system,
which does not affect the inputs settled here). -/
def validRoles : List String := ["user", "assistant", "system", "tool", "function"]

/-- Translation of the per-message checks inside the validation loop of
validateChatCompletionRequest (src/src/types.ts): a falsy entry is
skipped entirely; then the role must be truthy, a string and among the
valid roles; then the content must be neither undefined nor null and
must be a string. -/
def validateMessage (i : Nat) (msg : JsValue) : Option ValidationError :=
  if !(jsTruthy msg) then none
  else
    let role := getField msg "role"
    if !(jsTruthy role) then
      some ⟨"messages[" ++ toString i ++ "].role is required",
        "invalid_request_error", "missing_required_parameter",
        some ("messages[" ++ toString i ++ "].role")⟩
    else if !(match role with
        | .jsStr r => validRoles.contains r
        | _ => false) then
      some ⟨"messages[" ++ toString i ++ "].role must be one of: user, assistant, system, tool, function",
        "invalid_request_error", "invalid_value",
        some ("messages[" ++ toString i ++ "].role")⟩
    else
      let content := getField msg "content"
      if content.isUndefined || content.isNull then
        some ⟨"messages[" ++ toString i ++ "].content is required",
          "invalid_request_error", "missing_required_parameter",
          some ("messages[" ++ toString i ++ "].content")⟩
      else if !(match content with
          | .jsStr _ => true
          | _ => false) then
        some ⟨"messages[" ++ toString i ++ "].content must be a string",
          "invalid_request_error", "invalid_type",
          some ("messages[" ++ toString i ++ "].content")⟩
      else none

/-- Validation loop over the messages array, with the running index. -/
def validateMessages : Nat → List JsValue → Option ValidationError
  | _, [] => none
  | i, m :: rest =>
    match validateMessage i m with
    | some e => some e
    | none => validateMessages (i + 1) rest

/-- Translation of validateChatCompletionRequest from src/src/types.ts:
messages must be truthy, an array and non-empty; each message passes the
per-message checks (falsy entries skipped); model, when present, must be
a string; stream, when present, must be a boolean. -/
def validateChatCompletionRequest (body : JsValue) : ValidationResult :=
  let messages := getField body "messages"
  if !(jsTruthy messages) then
    .invalid ⟨"Missing required parameter: messages", "invalid_request_error",
      "missing_required_parameter", some "messages"⟩
  else
    match messages with
    | .jsArr elems =>
      if elems.length == 0 then
        .invalid ⟨"messages array must not be empty", "invalid_request_error",
          "invalid_value", some "messages"⟩
      else
        match validateMessages 0 elems with
        | some e => .invalid e
        | none =>
          let model := getField body "model"
          if !(model.isUndefined) && !(match model with
              | .jsStr _ => true
              | _ => false) then
            .invalid ⟨"model must be a string", "invalid_request_error",
              "invalid_type", some "model"⟩
          else
            let stream := getField body "stream"
            if !(stream.isUndefined) && !(match stream with
                | .jsBool _ => true
                | _ => false) then
              .invalid ⟨"stream must be a boolean", "invalid_request_error",
                "invalid_type", some "stream"⟩
            else .valid
    | _ =>
      .invalid ⟨"messages must be an array", "invalid_request_error",
        "invalid_type", some "messages"⟩

/-- Default model identifier (DEFAULT_MODEL of the model catalog). -/
def DEFAULT_MODEL : String := "claude-opus-4-6"

/-- Response summary the handler produces: HTTP status plus the type and
code fields of the error envelope when one is returned. -/
structure HandlerResponse where
  status : Nat
  errorType : Option String
  errorCode : Option String
deriving DecidableEq, Repr

/-- Table of client pools keyed by the resolved pool key, modelling the
clientPools record; a key not yet present denotes a fresh entry. -/
def PoolTable := List (String × PoolState)

/-- Pool entry for a key, created on demand exactly as the source
clientPools[poolKey] ??= initializer does. -/
def getPool (t : PoolTable) (k : String) : PoolState :=
  (t.lookup k).getD initPool

/-- Assignment of a pool entry, shadowing any previous binding. -/
def setPool (t : PoolTable) (k : String) (p : PoolState) : PoolTable :=
  (k, p) :: t

/-- Fresh handle identifier for the sequential acquisition model: one
above every identifier recorded anywhere in the entry, standing for the
brand-new object the SDK returns. -/
def freshClientId (p : PoolState) : Nat :=
  (p.available.foldr Nat.max 0).max ((p.inUse ∪ p.closed).sup id) + 1

/-- Sequential (single-request) translation of getAuggieClient: pop the
last available handle if any, otherwise create a new handle when
inUse + creating is below POOL_SIZE (the construction completing without
interleaving, so creating returns to its prior value), otherwise mint a
temporary overflow handle that is not recorded in the entry. Returns the
handle checked out and the updated entry. -/
def getAuggieClientFn (p : PoolState) : Nat × PoolState :=
  match p.available.getLast? with
  | some c => (c, { p with available := p.available.dropLast, inUse := insert c p.inUse })
  | none =>
    if p.inUse.card + p.creating < POOL_SIZE then
      let c := freshClientId p
      (c, { p with inUse := insert c p.inUse })
    else
      (freshClientId p, p)

/-- Dispatch of a validated request, far enough for the claims settled
here: the pool entry for the resolved model is taken (created on
demand), a handle is acquired, the upstream prompt call runs, and the
handle is released on completion. -/
def dispatchRequest (modelStr : String) (t : PoolTable) :
    HandlerResponse × PoolTable :=
  let p := getPool t modelStr
  let (c, p1) := getAuggieClientFn p
  let p2 := releaseAuggieClient p1 c
  ({ status := 200, errorType := none, errorCode := none }, setPool t modelStr p2)

/-- Translation of the validation gate of handleChatCompletions
(src/src/server.ts): an invalid body is answered with HTTP 400 and the
validation error envelope before any pool interaction; a valid body
resolves the model (body.model ?? DEFAULT_MODEL) and dispatches. -/
def handleChatCompletions (body : JsValue) (t : PoolTable) :
    HandlerResponse × PoolTable :=
  match validateChatCompletionRequest body with
  | .invalid e => ({ status := 400, errorType := some e.etype, errorCode := some e.code }, t)
  | .valid =>
    let modelStr := match getField body "model" with
      | .jsStr s => s
      | _ => DEFAULT_MODEL
    dispatchRequest modelStr t

/-- Predicate satisfied by a handle that has been discarded: it sits in
no pool collection and its close() has been invoked. -/
def bannedFrom (c : Nat) (s : PoolState) : Prop :=
  c ∉ s.available ∧ c ∉ s.inUse ∧ c ∈ s.closed

/-- Every atomic pool transition keeps the counter sum within
POOL_SIZE. -/
theorem poolStep_preserves_count {s t : PoolState} (h : PoolStep s t)
    (hc : poolCount s ≤ POOL_SIZE) : poolCount t ≤ POOL_SIZE := by
  cases h with
  | acquireAvail c rest hsplit =>
    have hcard : (insert c s.inUse).card ≤ s.inUse.card + 1 := Finset.card_insert_le _ _
    have hlen : s.available.length = rest.length + 1 := by rw [hsplit]; simp
    simp only [poolCount] at hc ⊢
    omega
  | startCreate hav hlt =>
    simp only [poolCount] at hc ⊢
    rw [hav] at hc ⊢
    simp only [List.length_nil] at hc ⊢
    omega
  | finishCreateOk c hcr hfa hfi hfc =>
    have hcard : (insert c s.inUse).card ≤ s.inUse.card + 1 := Finset.card_insert_le _ _
    simp only [poolCount] at hc ⊢
    omega
  | finishCreateErr hcr =>
    simp only [poolCount] at hc ⊢
    omega
  | overflowAcquire hav hsat => exact hc
  | release c =>
    simp only [poolCount] at hc ⊢
    unfold releaseAuggieClient
    by_cases hin : c ∈ s.inUse
    · have hpos : 0 < s.inUse.card := Finset.card_pos.mpr ⟨c, hin⟩
      have hce : (s.inUse.erase c).card = s.inUse.card - 1 := Finset.card_erase_of_mem hin
      by_cases hlen : s.available.length < POOL_SIZE
      · simp only [hin, hlen, if_true, if_pos]
        simp only [List.length_append, List.length_singleton]
        omega
      · simp only [hin, hlen, if_true, if_pos, if_neg, if_false]
        omega
    · simp only [hin, if_neg, if_false]
      exact hc
  | discard c =>
    have hce : (s.inUse.erase c).card ≤ s.inUse.card :=
      Finset.card_le_card (Finset.erase_subset c s.inUse)
    simp only [poolCount] at hc ⊢
    unfold discardAuggieClient
    dsimp only
    omega

/-- Every atomic pool transition keeps a discarded handle out of
available and inUse and in the closed set: the only constructor that
introduces a handle from outside the pool collections is
finishCreateOk, and the brand-new handle it introduces is never one
whose close() already ran. -/
theorem poolStep_preserves_banned {c : Nat} {s t : PoolState}
    (h : PoolStep s t) (hb : bannedFrom c s) : bannedFrom c t := by
  obtain ⟨hav, hin, hcl⟩ := hb
  cases h with
  | acquireAvail d rest hsplit =>
    have hd : c ≠ d := by
      intro hcd
      exact hav (by rw [hsplit, hcd]; simp)
    have hrest : c ∉ rest := by
      intro hr
      exact hav (by rw [hsplit]; exact List.mem_append.mpr (Or.inl hr))
    refine ⟨hrest, ?_, hcl⟩
    dsimp only
    rw [Finset.mem_insert]
    rintro (h | h)
    · exact hd h
    · exact hin h
  | startCreate _ _ => exact ⟨hav, hin, hcl⟩
  | finishCreateOk d hcr hfa hfi hfc =>
    have hd : c ≠ d := by
      intro hcd
      exact hfc (hcd ▸ hcl)
    refine ⟨hav, ?_, hcl⟩
    dsimp only
    rw [Finset.mem_insert]
    rintro (h | h)
    · exact hd h
    · exact hin h
  | finishCreateErr _ => exact ⟨hav, hin, hcl⟩
  | overflowAcquire _ _ => exact ⟨hav, hin, hcl⟩
  | release d =>
    unfold releaseAuggieClient
    by_cases hdin : d ∈ s.inUse
    · have hcd : c ≠ d := by
        intro h
        exact hin (h ▸ hdin)
      by_cases hlen : s.available.length < POOL_SIZE
      · simp only [hdin, hlen, if_true, if_pos]
        refine ⟨?_, ?_, hcl⟩
        · dsimp only
          intro hmem
          rcases List.mem_append.mp hmem with h | h
          · exact hav h
          · exact hcd (List.mem_singleton.mp h)
        · dsimp only
          intro hmem
          exact hin (Finset.mem_of_mem_erase hmem)
      · simp only [hdin, hlen, if_true, if_pos, if_neg, if_false]
        refine ⟨hav, ?_, ?_⟩
        · dsimp only
          intro hmem
          exact hin (Finset.mem_of_mem_erase hmem)
        · dsimp only
          exact Finset.mem_insert_of_mem hcl
    · simp only [hdin, if_neg, if_false]
      exact ⟨hav, hin, hcl⟩
  | discard d =>
    unfold discardAuggieClient
    refine ⟨hav, ?_, ?_⟩
    · dsimp only
      intro hmem
      exact hin (Finset.mem_of_mem_erase hmem)
    · dsimp only
      exact Finset.mem_insert_of_mem hcl

/-- Banned handles stay banned along every interleaving. -/
theorem reachFrom_preserves_banned {c : Nat} {s t : PoolState}
    (h : ReachFrom s t) (hb : bannedFrom c s) : bannedFrom c t := by
  induction h with
  | refl => exact hb
  | tail hreach hstep ih => exact poolStep_preserves_banned hstep ih

/-- C2: for every pool key, at every instant reachable by any
interleaving of the pool operations, available + inUse + creating stays
within POOL_SIZE = 5. The bound needs no exception for the overflow
path: a saturated acquisition mints a temporary handle without touching
any of the three counters, so the counter sum is bounded even
immediately after it. -/
theorem poolCountersBounded (s : PoolState) (h : Reachable s) :
    poolCount s ≤ POOL_SIZE := by
  unfold Reachable at h
  induction h with
  | refl => decide
  | tail hreach hstep ih => exact poolStep_preserves_count hstep ih

/-- Witness for C2: the invariant evaluated at the state reached after
reserving one creation slot from the fresh pool entry. -/
theorem poolCountersBoundedWitness :
    poolCount { available := [], inUse := ∅, creating := 1, closed := ∅ } ≤ POOL_SIZE :=
  poolCountersBounded _
    (ReachFrom.tail (ReachFrom.refl initPool) (PoolStep.startCreate initPool rfl (by decide)))

/-- Saturated pool entry: no available handle and five handles checked
out, so a sixth concurrent request takes the overflow path of
getAuggieClient. -/
def saturatedPool : PoolState :=
  { available := [], inUse := {1, 2, 3, 4, 5}, creating := 0, closed := ∅ }

/-- Counterexample for C4: the pool is saturated, handle 6 is a
temporary overflow handle (minted outside the pool collections), its
request completes normally, and the release call in the finally block is
a no-op: the handle is not closed. This refutes the claim that every
overflow handle is closed after its request completes. -/
theorem overflowReleaseLeavesHandleOpen :
    saturatedPool.available = [] ∧
    POOL_SIZE ≤ saturatedPool.inUse.card + saturatedPool.creating ∧
    releaseAuggieClient saturatedPool 6 = saturatedPool ∧
    6 ∉ (releaseAuggieClient saturatedPool 6).closed := by
  refine ⟨rfl, by decide, ?_, ?_⟩
  · simp [releaseAuggieClient, saturatedPool]
  · simp [releaseAuggieClient, saturatedPool]

/-- C4 (amended): a temporary overflow handle is never returned to the
pool: releasing it after a normally completed request is a no-op that
neither pools nor closes it, and discarding it (session fault or abort)
closes it without adding it to available or inUse, after which no
interleaving of pool operations ever brings it back. In the release
no-op case the handle also never re-enters the pool, because every
handle the pool later adds is either popped from available or freshly
constructed by the SDK, hence a different object. -/
theorem overflowHandleNeverPooled (s : PoolState) (c : Nat)
    (hin : c ∉ s.inUse) (hav : c ∉ s.available) (hcl : c ∉ s.closed) :
    releaseAuggieClient s c = s ∧
    c ∉ (releaseAuggieClient s c).closed ∧
    c ∉ (discardAuggieClient s c).available ∧
    c ∉ (discardAuggieClient s c).inUse ∧
    c ∈ (discardAuggieClient s c).closed ∧
    ∀ u, ReachFrom (discardAuggieClient s c) u → c ∉ u.available ∧ c ∉ u.inUse := by
  have hrel : releaseAuggieClient s c = s := by simp [releaseAuggieClient, hin]
  have hb : bannedFrom c (discardAuggieClient s c) := by
    refine ⟨?_, ?_, ?_⟩
    · simpa [discardAuggieClient] using hav
    · simp [discardAuggieClient]
    · simp [discardAuggieClient]
  refine ⟨hrel, ?_, hb.1, hb.2.1, hb.2.2, ?_⟩
  · rw [hrel]; exact hcl
  · intro u hu
    have hres := reachFrom_preserves_banned hu hb
    exact ⟨hres.1, hres.2.1⟩

/-- Witness for C4: the amended statement evaluated for the temporary
handle 6 against the saturated pool. -/
theorem overflowHandleNeverPooledWitness :
    releaseAuggieClient saturatedPool 6 = saturatedPool ∧
    6 ∉ (releaseAuggieClient saturatedPool 6).closed ∧
    6 ∉ (discardAuggieClient saturatedPool 6).available ∧
    6 ∉ (discardAuggieClient saturatedPool 6).inUse ∧
    6 ∈ (discardAuggieClient saturatedPool 6).closed := by
  obtain ⟨h1, h2, h3, h4, h5, -⟩ :=
    overflowHandleNeverPooled saturatedPool 6 (by decide) (by decide) (by decide)
  exact ⟨h1, h2, h3, h4, h5⟩

/-- C5: a handle whose request failed with a session fault, or was
terminated by the forced Request aborted rejection (timeout or caller
disconnect), is routed to discardAuggieClient by the cleanup block:
it leaves inUse, is never placed in available, and no interleaving of
subsequent pool operations can hand it to a later request. The handle
is checked out by the failing request, hence not in available. -/
theorem sessionFaultDiscardsHandle (s : PoolState) (c : Nat) (e : JsError)
    (hav : c ∉ s.available)
    (he : Embedded.isSessionError e = true ∨ e.message = "Request aborted") :
    cleanupClient (some e) s c = discardAuggieClient s c ∧
    c ∉ (cleanupClient (some e) s c).available ∧
    c ∉ (cleanupClient (some e) s c).inUse ∧
    ∀ u, ReachFrom (cleanupClient (some e) s c) u →
      c ∉ u.available ∧ c ∉ u.inUse := by
  have hcond : (e.message == "Request aborted" || Embedded.isSessionError e) = true := by
    rcases he with h | h
    · simp [h]
    · simp [h]
  have heq : cleanupClient (some e) s c = discardAuggieClient s c := by
    simp [cleanupClient, hcond]
  have hb : bannedFrom c (discardAuggieClient s c) := by
    refine ⟨?_, ?_, ?_⟩
    · simpa [discardAuggieClient] using hav
    · simp [discardAuggieClient]
    · simp [discardAuggieClient]
  refine ⟨heq, ?_, ?_, ?_⟩
  · rw [heq]; exact hb.1
  · rw [heq]; exact hb.2.1
  · intro u hu
    rw [heq] at hu
    have hres := reachFrom_preserves_banned hu hb
    exact ⟨hres.1, hres.2.1⟩

/-- Pool entry with handle 7 checked out by the failing request. -/
def faultPool : PoolState :=
  { available := [], inUse := {7}, creating := 0, closed := ∅ }

/-- Session-fault error thrown by the upstream client. -/
def websocketErr : JsError := { message := "WebSocket connection lost" }

/-- Witness for C5: the websocket fault discards handle 7, and even a
subsequent release step cannot bring it back into the in-use set. -/
theorem sessionFaultDiscardsHandleWitness :
    7 ∉ (cleanupClient (some websocketErr) faultPool 7).inUse ∧
    7 ∉ (releaseAuggieClient (cleanupClient (some websocketErr) faultPool 7) 7).inUse := by
  obtain ⟨-, -, hin, hall⟩ :=
    sessionFaultDiscardsHandle faultPool 7 websocketErr (by decide) (Or.inl (by decide))
  exact ⟨hin,
    (hall _ (ReachFrom.tail (ReachFrom.refl _) (PoolStep.release _ 7))).2⟩

/-- C7: any error whose message matches a ContextTooLong pattern is
classified non-retryable by isRetryableError, regardless of any
accompanying numeric status code (including 429 or a 5xx code): the
context-length test is consulted first and short-circuits to false. -/
theorem contextLengthNeverRetryable (e : JsError)
    (h : isContextLengthError e = true) : isRetryableError e = false := by
  simp [isRetryableError, h]

/-- Witness for C7: a context-length message carrying status code 429,
which would otherwise classify as rate-limited. -/
theorem contextLengthNeverRetryableWitness :
    isContextLengthError { message := "context length exceeded", statusCode := some 429 } = true ∧
    isRetryableError { message := "context length exceeded", statusCode := some 429 } = false :=
  ⟨by decide, contextLengthNeverRetryable _ (by decide)⟩

/-- C10: a syntactically well-formed body whose messages array is the
non-empty list consisting of the single entry null passes validation:
the per-message role and content checks are skipped for falsy entries by
the continue branch, so validateChatCompletionRequest answers valid. -/
theorem nullOnlyMessagesPassValidation :
    validateChatCompletionRequest (.jsObj [("messages", .jsArr [.jsNull])]) =
      .valid := by
  rfl

/-- C9: a request whose messages field is the empty array is rejected
with HTTP 400 and an invalid_request_error envelope by the validation
gate, before any upstream interaction, and the pool table is returned
exactly as it was: no pool entry for any model changes. -/
theorem emptyMessagesRejectedPoolUntouched (t : PoolTable) (model stream : JsValue) :
    handleChatCompletions
        (.jsObj [("model", model), ("messages", .jsArr []), ("stream", stream)]) t =
      ({ status := 400, errorType := some "invalid_request_error",
         errorCode := some "invalid_value" }, t) := by
  rfl

/-- C3: for the upstream event sequence thought a, thought b, text c,
thought d, the embedded translator emits exactly one reasoning chunk
with the coalesced text ab, then the content chunk c, then the reasoning
chunk d immediately, before the terminal stop chunk and DONE marker; and
when the stream completes with reasoning still buffered (second
sequence), the flush in the finally block emits it before the terminal
chunk. -/
theorem reasoningBufferedThenFlushed :
    Embedded.streamResponse "r1"
        [thoughtEvent "a", thoughtEvent "b", textEvent "c", thoughtEvent "d"] =
      [.chunk "chatcmpl-r1" (.reasoningContent "ab") none,
       .chunk "chatcmpl-r1" (.contentDelta "c") none,
       .chunk "chatcmpl-r1" (.reasoningContent "d") none,
       .chunk "chatcmpl-r1" .empty (some "stop"),
       .doneMarker] ∧
    Embedded.streamResponse "r1" [thoughtEvent "a", thoughtEvent "b"] =
      [.chunk "chatcmpl-r1" (.reasoningContent "ab") none,
       .chunk "chatcmpl-r1" .empty (some "stop"),
       .doneMarker] := by
  exact ⟨rfl, rfl⟩

/-- C8: evaluation of the src/src/server.ts streaming path at the
failing input. The response does end with an empty-delta stop chunk
followed by the DONE marker, but the chunk identifiers are pairwise
distinct: createStreamChunk draws a fresh randomUUID (u1, u2, u3) for
every content chunk and for the terminal chunk, so the chunks of one
response do not share one stable identifier. -/
theorem serverStreamChunkIdsNotStable :
    Server.streamResponse ["u1", "u2", "u3"] "r1" [textEvent "Hel", textEvent "lo!"] =
      [.chunk "chatcmpl-u1" (.contentDelta "Hel") none,
       .chunk "chatcmpl-u2" (.contentDelta "lo!") none,
       .chunk "chatcmpl-u3" .empty (some "stop"),
       .doneMarker] ∧
    ((Server.streamResponse ["u1", "u2", "u3"] "r1"
        [textEvent "Hel", textEvent "lo!"]).filterMap writeId).Nodup := by
  exact ⟨rfl, by decide⟩

/-- Retryable failure thrown by the upstream prompt call after partial
output was already written. -/
def timeoutErr : JsError := { message := "ETIMEDOUT: socket timeout" }

/-- Behaviour of callStreamingInternal on every attempt for the C1
failing input: the session-update callback writes one content chunk to
the response, then the prompt call rejects with the retryable timeout
error. -/
def partialThenTimeout : Embedded.AttemptBehavior :=
  fun _ => ([.chunk "chatcmpl-r1" (.contentDelta "Hel") none], some timeoutErr)

/-- C1: evaluation of the embedded servers callStreaming (which wraps
callStreamingInternal in withRetry; callAugmentAPIStreaming of
src/src/server.ts is wrapped identically) at the failing input: after
the first attempt has already written a content chunk to the caller, the
retryable failure is silently retried three more times, replaying the
prompt and emitting the already-sent chunk four times in one response. -/
theorem streamingRetryReplaysEmittedOutput :
    Embedded.callStreaming partialThenTimeout =
      ([.chunk "chatcmpl-r1" (.contentDelta "Hel") none,
        .chunk "chatcmpl-r1" (.contentDelta "Hel") none,
        .chunk "chatcmpl-r1" (.contentDelta "Hel") none,
        .chunk "chatcmpl-r1" (.contentDelta "Hel") none],
       .error timeoutErr, 4) := by
  rfl

/-- Bounds on one computed retry delay: with the jitter draw in
[-1, 1], the floored delay lies between nine tenths and eleven tenths of
the capped exponential base. The lower bound is tight because nine
tenths of every capped base (900 times a power of two, or 27000) is an
integer. -/
theorem calculateRetryDelayBounds (n : Nat) (r : ℚ) (h1 : -1 ≤ r) (h2 : r ≤ 1) :
    (9 / 10 : ℚ) * min ((1000 : ℚ) * 2 ^ n) 30000 ≤ ((calculateRetryDelay n r : Int) : ℚ) ∧
    ((calculateRetryDelay n r : Int) : ℚ) ≤ (11 / 10 : ℚ) * min ((1000 : ℚ) * 2 ^ n) 30000 := by
  have hpow : (0 : ℚ) < (1000 : ℚ) * 2 ^ n := by positivity
  have hb0 : (0 : ℚ) < min ((1000 : ℚ) * 2 ^ n) 30000 := lt_min hpow (by norm_num)
  set base : ℚ := min ((1000 : ℚ) * 2 ^ n) 30000 with hbase
  have hval : calculateRetryDelay n r = Int.floor (base + base * (1 / 10) * r) := by
    simp only [calculateRetryDelay, RETRY_CONFIG, hbase]
  have hup : base + base * (1 / 10) * r ≤ (11 / 10) * base := by
    have hm := mul_le_mul_of_nonneg_left h2 (le_of_lt (by positivity : (0 : ℚ) < base * (1 / 10)))
    linarith
  have hlo : (9 / 10) * base ≤ base + base * (1 / 10) * r := by
    have hm := mul_le_mul_of_nonneg_left h1 (le_of_lt (by positivity : (0 : ℚ) < base * (1 / 10)))
    linarith
  obtain ⟨k, hk⟩ : ∃ k : Int, (k : ℚ) = (9 / 10) * base := by
    rcases le_total ((1000 : ℚ) * 2 ^ n) 30000 with hle | hge
    · refine ⟨900 * 2 ^ n, ?_⟩
      rw [hbase, min_eq_left hle]
      push_cast
      ring
    · refine ⟨27000, ?_⟩
      rw [hbase, min_eq_right hge]
      norm_num
  constructor
  · rw [hval, ← hk]
    have hkfloor : k ≤ Int.floor (base + base * (1 / 10) * r) :=
      Int.le_floor.mpr (by rw [hk]; exact hlo)
    exact_mod_cast hkfloor
  · rw [hval]
    exact le_trans (Int.floor_le _) hup

/-- Range required of the delay slept between attempts n and n + 1: the
capped exponential base perturbed by at most the jitter factor, never
above eleven tenths of the delay cap. -/
def delayInRange (n : Nat) (d : Int) : Prop :=
  (9 / 10 : ℚ) * min ((1000 : ℚ) * 2 ^ n) 30000 ≤ (d : ℚ) ∧
  (d : ℚ) ≤ (11 / 10 : ℚ) * min ((1000 : ℚ) * 2 ^ n) 30000 ∧
  (d : ℚ) ≤ (11 / 10 : ℚ) * 30000

/-- Any delay computed with a jitter draw in [-1, 1] meets
delayInRange. -/
theorem calculateRetryDelayInRange (n : Nat) (r : ℚ) (h1 : -1 ≤ r) (h2 : r ≤ 1) :
    delayInRange n (calculateRetryDelay n r) := by
  obtain ⟨hlo, hup⟩ := calculateRetryDelayBounds n r h1 h2
  refine ⟨hlo, hup, hup.trans ?_⟩
  have hmin : min ((1000 : ℚ) * 2 ^ n) 30000 ≤ 30000 := min_le_right _ _
  have := mul_le_mul_of_nonneg_left hmin (by norm_num : (0 : ℚ) ≤ 11 / 10)
  linarith

/-- C6: an operation failing on every attempt with a retryable error is
attempted exactly maxRetries + 1 times by withRetry before the final
error propagates, and each of the maxRetries delays slept between
consecutive attempts n and n + 1 lies within the capped exponential
backoff window perturbed by the jitter factor. -/
theorem retryExhaustsAttempts {α : Type} (op : Nat → Except JsError α)
    (jit : Nat → ℚ) (err : Nat → JsError)
    (hop : ∀ n, op n = .error (err n))
    (hretry : ∀ n, isRetryableError (err n) = true)
    (hjit : ∀ n, -1 ≤ jit n ∧ jit n ≤ 1) :
    (withRetry op jit).attempts = RETRY_CONFIG.maxRetries + 1 ∧
    (withRetry op jit).result = .error (err RETRY_CONFIG.maxRetries) ∧
    (withRetry op jit).delays =
      [calculateRetryDelay 0 (jit 0), calculateRetryDelay 1 (jit 1),
       calculateRetryDelay 2 (jit 2)] ∧
    delayInRange 0 (calculateRetryDelay 0 (jit 0)) ∧
    delayInRange 1 (calculateRetryDelay 1 (jit 1)) ∧
    delayInRange 2 (calculateRetryDelay 2 (jit 2)) := by
  have htrace : withRetry op jit =
      ⟨.error (err RETRY_CONFIG.maxRetries),
       [calculateRetryDelay 0 (jit 0), calculateRetryDelay 1 (jit 1),
        calculateRetryDelay 2 (jit 2)], RETRY_CONFIG.maxRetries + 1⟩ := by
    show withRetryFrom op jit 0 3 = _
    simp [withRetryFrom, hop, hretry]
    exact ⟨rfl, rfl⟩
  refine ⟨by rw [htrace], by rw [htrace], by rw [htrace], ?_, ?_, ?_⟩
  · exact calculateRetryDelayInRange 0 (jit 0) (hjit 0).1 (hjit 0).2
  · exact calculateRetryDelayInRange 1 (jit 1) (hjit 1).1 (hjit 1).2
  · exact calculateRetryDelayInRange 2 (jit 2) (hjit 2).1 (hjit 2).2

/-- Transient network failure used by the retry witness. -/
def transientErr : JsError := { message := "ECONNRESET: socket hang up" }

/-- Witness for C6: the always-failing transient operation with the
jitter draws fixed at zero. -/
theorem retryExhaustsAttemptsWitness :
    (withRetry (fun _ => (.error transientErr : Except JsError Unit)) (fun _ => 0)).attempts =
      RETRY_CONFIG.maxRetries + 1 ∧
    (withRetry (fun _ => (.error transientErr : Except JsError Unit)) (fun _ => 0)).result =
      .error transientErr ∧
    (withRetry (fun _ => (.error transientErr : Except JsError Unit)) (fun _ => 0)).delays =
      [calculateRetryDelay 0 0, calculateRetryDelay 1 0, calculateRetryDelay 2 0] ∧
    delayInRange 0 (calculateRetryDelay 0 0) ∧
    delayInRange 1 (calculateRetryDelay 1 0) ∧
    delayInRange 2 (calculateRetryDelay 2 0) :=
  retryExhaustsAttempts (fun _ => .error transientErr) (fun _ => 0) (fun _ => transientErr)
    (fun _ => rfl)
    (fun _ => (by decide : isRetryableError transientErr = true))
    (fun _ => by norm_num)

/-- Witness for C9: the empty-messages rejection evaluated at the empty
pool table with both optional fields absent. -/
theorem emptyMessagesRejectedPoolUntouchedWitness :
    handleChatCompletions
        (.jsObj [("model", .jsUndefined), ("messages", .jsArr []), ("stream", .jsUndefined)]) [] =
      ({ status := 400, errorType := some "invalid_request_error",
         errorCode := some "invalid_value" }, []) :=
  emptyMessagesRejectedPoolUntouched [] .jsUndefined .jsUndefined
